import Mathlib

/-!
# Verification of the `circuitbreaker` module (caddyserver/circuitbreaker)

Shallow embedding of `circuitbreaker.go`.  The module wraps an external
sliding-window statistics engine (`memmetrics.RTMetrics`); per the spec the
engine is an external collaborator specified only at its interface.  We model
the engine's window content as a list of recorded observations; the aggregate
queries used by the breaker (`NetworkErrorRatio`, `LatencyHistogram`) are kept
abstract as parameters, except `ResponseCodeRatio` whose meaning the spec
fixes and which we model from the spec at its interface.

Machine numbers: `float64` threshold/ratio values are modelled as `ℚ` (the
breaker only compares them and truncates the threshold to an integer);
`int64` durations are `ℤ` nanoseconds.  Go's `/` on `int64` truncates toward
zero, which is `Int.tdiv`; Go's `int64(float64)` conversion truncates toward
zero, modelled by `truncQ`.
-/

namespace CircuitBreaker

/-- Go's `int64(x)` conversion of a `float64`: truncation toward zero. -/
def truncQ (q : ℚ) : ℤ := if 0 ≤ q then ⌊q⌋ else ⌈q⌉

/-- One recorded observation: a response status code and the request latency
in nanoseconds (`time.Duration` is an `int64` nanosecond count). -/
structure Obs where
  status : ℤ
  latencyNs : ℤ
deriving DecidableEq, Repr

/-- The external statistics engine's state, modelled at its interface: the
sliding window's current content, as the list of observations recorded since
the last reset (newest first).  Windowing/decay of old entries is the
engine's own business and irrelevant to every claim here. -/
structure RTMetrics where
  window : List Obs
deriving DecidableEq, Repr

/-- Modelled from the spec: the external engine's `Record(statusCode, latency)`
adds the observation to the window. -/
def RTMetrics.record (m : RTMetrics) (status latencyNs : ℤ) : RTMetrics :=
  ⟨⟨status, latencyNs⟩ :: m.window⟩

/-- Modelled from the spec: the external engine's `Reset()` empties the
statistics window ("reset the statistics window to empty"). -/
def RTMetrics.reset (_ : RTMetrics) : RTMetrics :=
  ⟨[]⟩

/-- Modelled from the spec: the external engine's
`responseCodeRatio(lowA, highA, lowB, highB)` query — the ratio of windowed
responses whose status falls in `[lowA, highA)` over those whose status falls
in `[lowB, highB)` (0 when the denominator is empty). -/
def ResponseCodeRatio (w : List Obs) (lowA highA lowB highB : ℤ) : ℚ :=
  let a := (w.filter (fun o => decide (lowA ≤ o.status ∧ o.status < highA))).length
  let b := (w.filter (fun o => decide (lowB ≤ o.status ∧ o.status < highB))).length
  if b = 0 then 0 else (a : ℚ) / (b : ℚ)

/-- The remaining engine queries the breaker consumes, abstract (the spec
leaves their aggregation algorithms to the external collaborator): the
network-error ratio over the window, and the latency histogram — which can
fail (e.g. on an empty window) and otherwise yields quantile lookups,
`LatencyAtQuantile : quantile → duration in ns`. -/
structure EngineQueries where
  NetworkErrorRatio : List Obs → ℚ
  LatencyHistogram : List Obs → Except Unit (ℚ → ℤ)

/-- `Config` from `circuitbreaker.go`: threshold, factor string, and trip
duration (`caddy.Duration`, an `int64` nanosecond count). -/
structure Config where
  Threshold : ℚ
  Factor : String
  TripDuration : ℤ
deriving DecidableEq, Repr

/-- The `Simple` breaker: `tripped` counter, internal factor code, the
(owned) metrics engine — `none` before provisioning, mirroring the Go nil
pointer — and the embedded `Config`. -/
structure Simple where
  tripped : ℤ
  cbFactor : ℤ
  metrics : Option RTMetrics
  config : Config
deriving DecidableEq, Repr

/-- `factorLatency = iota + 1`. -/
def factorLatency : ℤ := 1

/-- `factorErrorRatio`. -/
def factorErrorRatio : ℤ := 2

/-- `factorStatusCodeRatio`. -/
def factorStatusCodeRatio : ℤ := 3

/-- `defaultTripDuration = 5 * time.Second`, in nanoseconds. -/
def defaultTripDuration : ℤ := 5 * 1000000000

/-- The `typeCB` map from the configured factor string to the internal
circuit-breaker type code. -/
def typeCB (s : String) : Option ℤ :=
  if s = "latency" then some factorLatency
  else if s = "error_ratio" then some factorErrorRatio
  else if s = "status_ratio" then some factorStatusCodeRatio
  else none

/-- `Provision`: Go mutates the receiver and returns an error.  We return the
receiver's final state together with `some errorMessage` on failure.  The
external `memmetrics.NewRTMetrics()` call's outcome is the parameter `mk`. -/
def Provision (mk : Except String RTMetrics) (c : Simple) : Simple × Option String :=
  match typeCB c.config.Factor with
  | none => (c, some "type is not defined")
  | some f =>
    let c :=
      if c.config.TripDuration = 0 then
        { c with config := { c.config with TripDuration := defaultTripDuration } }
      else c
    match mk with
    | Except.error e => (c, some ("cannot create new metrics: " ++ e))
    | Except.ok mt =>
        ({ c with cbFactor := f, metrics := some mt, tripped := 0 }, none)

/-- `OK()`: whether the breaker is not tripped — `atomic.LoadInt32(&c.tripped) == 0`. -/
def OK (c : Simple) : Bool :=
  c.tripped == 0

/-- The `OK()` method call as a state transformer: its return value paired
with the receiver's state afterwards.  The method only performs an atomic
load, so the post-state is the receiver unchanged. -/
def OKcall (c : Simple) : Bool × Simple :=
  (OK c, c)

/-- The observable steps the trip branch of `checkAndSet` performs, in
order: resetting the metrics window, atomically incrementing `tripped`,
blocking on the `TripDuration` timer, atomically decrementing `tripped`. -/
inductive Event where
  | resetMetrics : Event
  | incTripped : Event
  | wait : ℤ → Event
  | decTripped : Event
deriving DecidableEq, Repr

/-- The `switch c.cbFactor` dispatch of `checkAndSet`, computing `isTripped`
from the window `w`.  `none` is the early `return` when the latency-histogram
query fails; `some b` says the check finished with `isTripped = b`.
The latency branch is
`l.Nanoseconds()/int64(time.Millisecond) > int64(c.Threshold)`. -/
def tripCheck (q : EngineQueries) (c : Simple) (w : List Obs) : Option Bool :=
  if c.cbFactor = factorErrorRatio then
    some (decide (c.config.Threshold < q.NetworkErrorRatio w))
  else if c.cbFactor = factorLatency then
    match q.LatencyHistogram w with
    | Except.error _ => none
    | Except.ok hist =>
        some (decide (truncQ c.config.Threshold <
          Int.tdiv (hist c.config.Threshold) 1000000))
  else if c.cbFactor = factorStatusCodeRatio then
    some (decide (c.config.Threshold < ResponseCodeRatio w 500 600 0 600))
  else
    some false

/-- `checkAndSet`: evaluates the trip condition and, when tripped, resets the
metrics, increments `tripped`, waits `TripDuration`, decrements `tripped`.
Returns the breaker's state once the call finishes, plus the trace of
intermediate events; `none` models the nil-metrics dereference of a call
before provisioning, which never happens in service. -/
def checkAndSet (q : EngineQueries) (c : Simple) : Option (Simple × List Event) :=
  match c.metrics with
  | none => none
  | some m =>
    match tripCheck q c m.window with
    | none => some (c, [])
    | some isTripped =>
      if isTripped then
        some ({ c with tripped := c.tripped + 1 - 1, metrics := some m.reset },
          [Event.resetMetrics, Event.incTripped,
            Event.wait c.config.TripDuration, Event.decTripped])
      else
        some (c, [])

/-- `RecordMetric(statusCode, latency)`: records the outcome into the engine,
then runs `checkAndSet`. -/
def RecordMetric (q : EngineQueries) (c : Simple) (status latencyNs : ℤ) :
    Option (Simple × List Event) :=
  match c.metrics with
  | none => none
  | some m =>
      checkAndSet q { c with metrics := some (m.record status latencyNs) }

/-- A call of the trip evaluator trips: its event trace increments the
tripped counter. -/
def Trips (q : EngineQueries) (c : Simple) : Prop :=
  ∃ c2 es, checkAndSet q c = some (c2, es) ∧ Event.incTripped ∈ es

/-- Timestamping an event trace that starts at time `t0` (nanoseconds):
every event happens at the current time, and a wait advances the clock by
its duration. -/
def timedEvents (t0 : ℤ) : List Event → List (ℤ × Event)
  | [] => []
  | Event.wait d :: es => (t0, Event.wait d) :: timedEvents (t0 + d) es
  | e :: es => (t0, e) :: timedEvents t0 es

/-- The contribution of one event to the tripped counter. -/
def eventDelta : Event → ℤ
  | Event.incTripped => 1
  | Event.decTripped => -1
  | _ => 0

/-- The value of the tripped counter at time `t`, given its value `base`
before the trace `es` started at time `t0`: `base` plus the deltas of every
event that has happened by time `t`. -/
def trippedAt (base t0 : ℤ) (es : List Event) (t : ℤ) : ℤ :=
  base + (((timedEvents t0 es).filter (fun p => decide (p.1 ≤ t))).map
    (fun p => eventDelta p.2)).sum

/-- A provisioned breaker trips exactly when the factor dispatch finishes
with `isTripped = true`. -/
theorem trips_iff_tripCheck (q : EngineQueries) (c : Simple) (m : RTMetrics)
    (hm : c.metrics = some m) :
    Trips q c ↔ tripCheck q c m.window = some true := by
  unfold Trips checkAndSet
  rw [hm]
  cases htc : tripCheck q c m.window with
  | none => simp [htc]
  | some b =>
    cases b
    · simp [htc]
    · simp only [htc, if_true]
      refine iff_of_true ⟨_, _, rfl, ?_⟩ trivial
      simp

/-- C7: `OK()` returns true iff the tripped counter is zero, leaves the
breaker's state unchanged, and a repeated call returns the same value. -/
theorem c7_ok_pure_and_tripped_zero (c : Simple) :
    ((OKcall c).1 = true ↔ c.tripped = 0) ∧ (OKcall c).2 = c ∧
      (OKcall (OKcall c).2).1 = (OKcall c).1 := by
  refine ⟨?_, rfl, rfl⟩
  simp [OKcall, OK]

/-- C6: a factor string other than `"latency"`, `"error_ratio"`,
`"status_ratio"` (the empty string included) makes `Provision` fail with the
"type is not defined" error, leaving the receiver untouched, so no usable
breaker is produced; each of the three known strings resolves in `typeCB`. -/
theorem c6_unknown_factor_rejected (c : Simple) (mk : Except String RTMetrics)
    (h : c.config.Factor ∉ (["latency", "error_ratio", "status_ratio"] : List String)) :
    Provision mk c = (c, some "type is not defined") ∧
      ∀ s ∈ (["latency", "error_ratio", "status_ratio"] : List String),
        (typeCB s).isSome = true := by
  simp only [List.mem_cons, List.not_mem_nil, or_false, not_or] at h
  obtain ⟨h1, h2, h3⟩ := h
  constructor
  · simp [Provision, typeCB, h1, h2, h3]
  · intro s hs
    simp only [List.mem_cons, List.not_mem_nil, or_false] at hs
    rcases hs with rfl | rfl | rfl <;> decide

/-- C6 witness: the empty factor string is rejected with the receiver
untouched, and the three known strings resolve. -/
theorem c6_unknown_factor_rejected_witness :
    Provision (Except.ok ⟨[]⟩) ⟨7, 9, none, ⟨0, "", 11⟩⟩ =
      (⟨7, 9, none, ⟨0, "", 11⟩⟩, some "type is not defined") ∧
      (typeCB "latency").isSome = true ∧ (typeCB "error_ratio").isSome = true ∧
      (typeCB "status_ratio").isSome = true := by
  have h := c6_unknown_factor_rejected ⟨7, 9, none, ⟨0, "", 11⟩⟩
    (Except.ok ⟨[]⟩) (by decide)
  exact ⟨h.1, h.2 "latency" (by decide), h.2 "error_ratio" (by decide),
    h.2 "status_ratio" (by decide)⟩

/-- C8: `Provision` replaces a zero trip duration by the 5-second default and
leaves a nonzero one unchanged. -/
theorem c8_trip_duration_default (c : Simple) (mk : Except String RTMetrics)
    (hf : (typeCB c.config.Factor).isSome = true) :
    (Provision mk c).1.config.TripDuration =
      (if c.config.TripDuration = 0 then defaultTripDuration
        else c.config.TripDuration) ∧
      defaultTripDuration = 5 * 1000000000 := by
  rcases Option.isSome_iff_exists.mp hf with ⟨f, hf2⟩
  refine ⟨?_, rfl⟩
  cases mk <;> simp [Provision, hf2] <;> split_ifs <;> rfl

/-- C8 witness: a zero trip duration becomes 5 seconds (in a successful
provision) and a nonzero one (7 ns, in a failing one) is kept. -/
theorem c8_trip_duration_default_witness :
    (Provision (Except.ok ⟨[]⟩) ⟨0, 0, none, ⟨0, "latency", 0⟩⟩).1.config.TripDuration =
      5000000000 ∧
    (Provision (Except.error "x") ⟨0, 0, none, ⟨0, "latency", 7⟩⟩).1.config.TripDuration =
      7 := by
  have h1 := c8_trip_duration_default ⟨0, 0, none, ⟨0, "latency", 0⟩⟩
    (Except.ok ⟨[]⟩) (by decide)
  have h2 := c8_trip_duration_default ⟨0, 0, none, ⟨0, "latency", 7⟩⟩
    (Except.error "x") (by decide)
  exact ⟨by rw [h1.1]; simp [defaultTripDuration], by rw [h2.1]; simp⟩

/-- C9: a successful `Provision` returns no error, leaves the breaker Closed
(`tripped = 0`, so `OK()` is true before any record), installs the internal
factor code resolved from the factor string, and installs the freshly
constructed engine; a failed engine construction yields the wrapped
"cannot create new metrics" error. -/
theorem c9_provision_success (c : Simple) (mt : RTMetrics) (f : ℤ)
    (hf : typeCB c.config.Factor = some f) :
    (Provision (Except.ok mt) c).2 = none ∧
    (Provision (Except.ok mt) c).1.tripped = 0 ∧
    OK (Provision (Except.ok mt) c).1 = true ∧
    (Provision (Except.ok mt) c).1.cbFactor = f ∧
    (Provision (Except.ok mt) c).1.metrics = some mt ∧
    ∀ e : String, (Provision (Except.error e) c).2 =
      some ("cannot create new metrics: " ++ e) := by
  refine ⟨?_, ?_, ?_, ?_, ?_, ?_⟩ <;>
    simp [Provision, hf, OK] <;> split_ifs <;> simp

/-- C9 witness: provisioning with factor `"status_ratio"` and a fresh engine
succeeds, Closed, with factor code 3 and the engine installed; the failing
construction yields the wrapped error. -/
theorem c9_provision_success_witness :
    (Provision (Except.ok ⟨[]⟩) ⟨5, 0, none, ⟨1, "status_ratio", 0⟩⟩).2 = none ∧
    (Provision (Except.ok ⟨[]⟩) ⟨5, 0, none, ⟨1, "status_ratio", 0⟩⟩).1.tripped = 0 ∧
    OK (Provision (Except.ok ⟨[]⟩) ⟨5, 0, none, ⟨1, "status_ratio", 0⟩⟩).1 = true ∧
    (Provision (Except.ok ⟨[]⟩) ⟨5, 0, none, ⟨1, "status_ratio", 0⟩⟩).1.cbFactor = 3 ∧
    (Provision (Except.ok ⟨[]⟩) ⟨5, 0, none, ⟨1, "status_ratio", 0⟩⟩).1.metrics =
      some ⟨[]⟩ ∧
    (Provision (Except.error "eng") ⟨5, 0, none, ⟨1, "status_ratio", 0⟩⟩).2 =
      some "cannot create new metrics: eng" := by
  have h := c9_provision_success ⟨5, 0, none, ⟨1, "status_ratio", 0⟩⟩ ⟨[]⟩ 3 (by decide)
  exact ⟨h.1, h.2.1, h.2.2.1, h.2.2.2.1, h.2.2.2.2.1, h.2.2.2.2.2 "eng"⟩

/-- C10: when the factor is unknown, `Provision` returns before writing any
field (the receiver is returned exactly as it came in, trip-duration default
not applied); when the factor resolves but engine construction fails, the
zero trip duration has already been defaulted to 5 seconds and only that
field differs — so the second failure path is not atomic. -/
theorem c10_failure_path_writes (c : Simple) (mk : Except String RTMetrics) (e : String) :
    (typeCB c.config.Factor = none → Provision mk c = (c, some "type is not defined")) ∧
    ((typeCB c.config.Factor).isSome = true →
      (Provision (Except.error e) c).1 =
        { c with config := { c.config with TripDuration :=
            if c.config.TripDuration = 0 then defaultTripDuration
            else c.config.TripDuration } } ∧
      (Provision (Except.error e) c).2 = some ("cannot create new metrics: " ++ e)) := by
  constructor
  · intro hn
    simp [Provision, hn]
  · intro hf
    rcases Option.isSome_iff_exists.mp hf with ⟨f, hf2⟩
    constructor <;> simp [Provision, hf2] <;> split_ifs with h0 <;> simp [h0]

/-- C10 witness: an unknown factor leaves the receiver (zero trip duration
included) untouched; a failing engine construction has already defaulted the
zero trip duration to 5 seconds. -/
theorem c10_failure_path_writes_witness :
    Provision (Except.error "eng") ⟨4, 6, none, ⟨1, "bogus", 0⟩⟩ =
      (⟨4, 6, none, ⟨1, "bogus", 0⟩⟩, some "type is not defined") ∧
    (Provision (Except.error "eng") ⟨4, 6, none, ⟨1, "latency", 0⟩⟩).1 =
      ⟨4, 6, none, ⟨1, "latency", 5000000000⟩⟩ := by
  have h1 := (c10_failure_path_writes ⟨4, 6, none, ⟨1, "bogus", 0⟩⟩
    (Except.error "eng") "eng").1 (by decide)
  have h2 := (c10_failure_path_writes ⟨4, 6, none, ⟨1, "latency", 0⟩⟩
    (Except.error "eng") "eng").2 (by decide)
  exact ⟨h1, by rw [h2.1]; rfl⟩

/-- C5: under the latency factor, a failing latency-histogram query makes
`checkAndSet` return with the breaker unchanged — same tripped counter, same
statistics window, no trip events, and no error in sight of the caller. -/
theorem c5_latency_query_failure_skips (q : EngineQueries) (c : Simple) (m : RTMetrics)
    (hm : c.metrics = some m) (hf : c.cbFactor = factorLatency)
    (he : q.LatencyHistogram m.window = Except.error ()) :
    checkAndSet q c = some (c, []) := by
  have htc : tripCheck q c m.window = none := by
    simp [tripCheck, hf, he, factorLatency, factorErrorRatio]
  simp [checkAndSet, hm, htc]

/-- C5 witness: a latency breaker over an engine whose histogram query fails
finishes `checkAndSet` with its state intact and no events. -/
theorem c5_latency_query_failure_skips_witness :
    checkAndSet ⟨fun _ => 0, fun _ => Except.error ()⟩
      ⟨0, 1, some ⟨[]⟩, ⟨200, "latency", 5⟩⟩ =
      some (⟨0, 1, some ⟨[]⟩, ⟨200, "latency", 5⟩⟩, []) :=
  c5_latency_query_failure_skips _ _ _ rfl rfl rfl

/-- C2: under the network-error-ratio factor the breaker trips iff the
engine's network-error ratio strictly exceeds the threshold, and under the
status-code-ratio factor iff the ratio of responses with status in
`[500, 600)` over responses with status in `[0, 600)` strictly exceeds the
threshold; a ratio exactly equal to the threshold never trips. -/
theorem c2_ratio_policies_strict (q : EngineQueries) (c : Simple) (m : RTMetrics)
    (hm : c.metrics = some m) :
    (c.cbFactor = factorErrorRatio →
      (Trips q c ↔ c.config.Threshold < q.NetworkErrorRatio m.window)) ∧
    (c.cbFactor = factorStatusCodeRatio →
      (Trips q c ↔ c.config.Threshold < ResponseCodeRatio m.window 500 600 0 600)) ∧
    (c.cbFactor = factorErrorRatio →
      q.NetworkErrorRatio m.window = c.config.Threshold → ¬ Trips q c) ∧
    (c.cbFactor = factorStatusCodeRatio →
      ResponseCodeRatio m.window 500 600 0 600 = c.config.Threshold →
        ¬ Trips q c) := by
  refine ⟨fun h => ?_, fun h => ?_, fun h he => ?_, fun h he => ?_⟩
  · rw [trips_iff_tripCheck q c m hm]
    simp [tripCheck, h, factorErrorRatio, factorStatusCodeRatio, factorLatency]
  · rw [trips_iff_tripCheck q c m hm]
    simp [tripCheck, h, factorErrorRatio, factorStatusCodeRatio, factorLatency]
  · rw [trips_iff_tripCheck q c m hm]
    simp [tripCheck, h, he, factorErrorRatio, factorStatusCodeRatio, factorLatency]
  · rw [trips_iff_tripCheck q c m hm]
    simp [tripCheck, h, he, factorErrorRatio, factorStatusCodeRatio, factorLatency]

/-- C2 witness: with threshold 1/2 and a network-error ratio of 1 the
error-ratio breaker trips. -/
theorem c2_ratio_policies_strict_witness :
    Trips ⟨fun _ => 1, fun _ => Except.error ()⟩
      ⟨0, 2, some ⟨[]⟩, ⟨1/2, "error_ratio", 5⟩⟩ :=
  ((c2_ratio_policies_strict ⟨fun _ => 1, fun _ => Except.error ()⟩
      ⟨0, 2, some ⟨[]⟩, ⟨1/2, "error_ratio", 5⟩⟩ ⟨[]⟩ rfl).1 rfl).mpr (by norm_num)

/-- C3: when the trip condition holds, `checkAndSet` performs, in order:
metrics reset, increment of `tripped`, the `TripDuration` wait, decrement of
`tripped` — and afterwards the statistics window is empty, so a subsequent
record lands in a window holding only itself, uninfluenced by pre-trip
history. -/
theorem c3_trip_sequence (q : EngineQueries) (c : Simple) (m : RTMetrics)
    (hm : c.metrics = some m) (ht : tripCheck q c m.window = some true) :
    checkAndSet q c =
      some ({ c with tripped := c.tripped + 1 - 1, metrics := some m.reset },
        [Event.resetMetrics, Event.incTripped,
          Event.wait c.config.TripDuration, Event.decTripped]) ∧
    (m.reset).window = [] ∧
    ∀ s l : ℤ, ((m.reset).record s l).window = [⟨s, l⟩] := by
  refine ⟨?_, rfl, fun s l => rfl⟩
  simp [checkAndSet, hm, ht]

/-- C3 witness: a tripping error-ratio breaker with a nonempty window resets
it, emits the four events in order, and a record right after the trip sees
only itself. -/
theorem c3_trip_sequence_witness :
    checkAndSet ⟨fun _ => 1, fun _ => Except.error ()⟩
        ⟨0, 2, some ⟨[⟨500, 10⟩]⟩, ⟨0, "error_ratio", 9⟩⟩ =
      some (⟨0 + 1 - 1, 2, some ⟨[]⟩, ⟨0, "error_ratio", 9⟩⟩,
        [Event.resetMetrics, Event.incTripped, Event.wait 9, Event.decTripped]) ∧
    ((⟨[⟨500, 10⟩]⟩ : RTMetrics).reset).window = [] ∧
    (((⟨[⟨500, 10⟩]⟩ : RTMetrics).reset).record 200 7).window = [⟨200, 7⟩] := by
  have h := c3_trip_sequence ⟨fun _ => 1, fun _ => Except.error ()⟩
    ⟨0, 2, some ⟨[⟨500, 10⟩]⟩, ⟨0, "error_ratio", 9⟩⟩ ⟨[⟨500, 10⟩]⟩ rfl rfl
  exact ⟨h.1, h.2.1, h.2.2 200 7⟩

/-- C4: for a breaker with no in-flight trip episode (`tripped = 0`) whose
trip condition holds, a trip starting at any time `t0` schedules its only
decrement exactly at `t0 + TripDuration` (the end of the blocking wait — no
other signal), and the tripped counter is nonzero (so `OK()` is false)
exactly on `[t0, t0 + TripDuration)`: false for the full duration, true
never before it has elapsed. -/
theorem c4_recovery_timing (q : EngineQueries) (c : Simple) (m : RTMetrics)
    (hm : c.metrics = some m) (ht : tripCheck q c m.window = some true)
    (h0 : c.tripped = 0) (hd : 0 < c.config.TripDuration) (t0 : ℤ) :
    ∃ c2 : Simple,
      checkAndSet q c = some (c2,
        [Event.resetMetrics, Event.incTripped,
          Event.wait c.config.TripDuration, Event.decTripped]) ∧
      timedEvents t0 [Event.resetMetrics, Event.incTripped,
          Event.wait c.config.TripDuration, Event.decTripped] =
        [(t0, Event.resetMetrics), (t0, Event.incTripped),
          (t0, Event.wait c.config.TripDuration),
          (t0 + c.config.TripDuration, Event.decTripped)] ∧
      ∀ t : ℤ, (trippedAt c.tripped t0
          [Event.resetMetrics, Event.incTripped,
            Event.wait c.config.TripDuration, Event.decTripped] t = 0 ↔
          (t < t0 ∨ t0 + c.config.TripDuration ≤ t)) := by
  refine ⟨{ c with tripped := c.tripped + 1 - 1, metrics := some m.reset },
    by simp [checkAndSet, hm, ht], by simp [timedEvents], fun t => ?_⟩
  by_cases h1 : t0 ≤ t <;>
    by_cases h2 : t0 + c.config.TripDuration ≤ t <;>
      simp [trippedAt, timedEvents, eventDelta, h0, h1, h2] <;> omega

/-- C4 witness: a trip at time 100 with a 9 ns trip duration keeps the
counter nonzero exactly on `[100, 109)`; at 99, 104 and 109 evaluated. -/
theorem c4_recovery_timing_witness :
    (∃ c2 : Simple,
      checkAndSet ⟨fun _ => 1, fun _ => Except.error ()⟩
          ⟨0, 2, some ⟨[]⟩, ⟨0, "error_ratio", 9⟩⟩ = some (c2,
        [Event.resetMetrics, Event.incTripped, Event.wait 9, Event.decTripped]) ∧
      timedEvents 100 [Event.resetMetrics, Event.incTripped,
          Event.wait 9, Event.decTripped] =
        [(100, Event.resetMetrics), (100, Event.incTripped),
          (100, Event.wait 9), (100 + 9, Event.decTripped)] ∧
      ∀ t : ℤ, (trippedAt 0 100 [Event.resetMetrics, Event.incTripped,
          Event.wait 9, Event.decTripped] t = 0 ↔ (t < 100 ∨ 100 + 9 ≤ t))) := by
  exact c4_recovery_timing ⟨fun _ => 1, fun _ => Except.error ()⟩
    ⟨0, 2, some ⟨[]⟩, ⟨0, "error_ratio", 9⟩⟩ ⟨[]⟩ rfl rfl rfl (by norm_num) 100

/-- C1: under the latency factor the histogram is queried at the quantile
equal to the configured threshold itself (the decision depends on the
histogram only through its value there), and for a successful query
returning latency `L` (a nonnegative duration, threshold a nonnegative
millisecond count) the breaker trips iff `⌊L in ms⌋` strictly exceeds the
threshold; the code's truncating nanosecond division is exactly
`⌊L in ms⌋`. -/
theorem c1_latency_quantile_policy (q : EngineQueries) (c : Simple) (m : RTMetrics)
    (hist : ℚ → ℤ)
    (hm : c.metrics = some m) (hf : c.cbFactor = factorLatency)
    (hq : q.LatencyHistogram m.window = Except.ok hist)
    (hth : 0 ≤ c.config.Threshold) (hL : 0 ≤ hist c.config.Threshold) :
    (Trips q c ↔
      c.config.Threshold < ((⌊(hist c.config.Threshold : ℚ) / 1000000⌋ : ℤ) : ℚ)) ∧
    Int.tdiv (hist c.config.Threshold) 1000000 =
      ⌊(hist c.config.Threshold : ℚ) / 1000000⌋ ∧
    ∀ (q2 : EngineQueries) (hist2 : ℚ → ℤ),
      q2.LatencyHistogram m.window = Except.ok hist2 →
      hist2 c.config.Threshold = hist c.config.Threshold →
      (Trips q2 c ↔ Trips q c) := by
  have hdiv : Int.tdiv (hist c.config.Threshold) 1000000 =
      ⌊(hist c.config.Threshold : ℚ) / 1000000⌋ := by
    rw [Int.tdiv_eq_ediv hL (by norm_num)]
    have h6 := Rat.floor_intCast_div_natCast (hist c.config.Threshold) 1000000
    exact_mod_cast h6.symm
  refine ⟨?_, hdiv, ?_⟩
  · rw [trips_iff_tripCheck q c m hm]
    have htc : tripCheck q c m.window =
        some (decide (truncQ c.config.Threshold <
          Int.tdiv (hist c.config.Threshold) 1000000)) := by
      simp [tripCheck, hf, hq, factorLatency, factorErrorRatio]
    rw [htc]
    simp only [Option.some_inj, decide_eq_true_eq]
    rw [hdiv, truncQ, if_pos hth]
    exact Int.floor_lt
  · intro q2 hist2 hq2 heq
    rw [trips_iff_tripCheck q2 c m hm, trips_iff_tripCheck q c m hm]
    simp [tripCheck, hf, hq, hq2, heq, factorLatency, factorErrorRatio]

/-- C1 witness: threshold 200 (ms), quantile latency 300 ms (300000000 ns):
the latency breaker trips, since `⌊300 ms⌋ = 300 > 200`. -/
theorem c1_latency_quantile_policy_witness :
    Trips ⟨fun _ => 0, fun _ => Except.ok (fun _ => 300000000)⟩
      ⟨0, 1, some ⟨[]⟩, ⟨200, "latency", 5⟩⟩ :=
  ((c1_latency_quantile_policy ⟨fun _ => 0, fun _ => Except.ok (fun _ => 300000000)⟩
      ⟨0, 1, some ⟨[]⟩, ⟨200, "latency", 5⟩⟩ ⟨[]⟩ (fun _ => 300000000)
      rfl rfl rfl (by norm_num) (by norm_num)).1).mpr
    (by rw [show (((300000000 : ℤ)) : ℚ) / 1000000 = ((300 : ℤ) : ℚ) by norm_num,
      Int.floor_intCast]; norm_num)

end CircuitBreaker
